import Mathlib

/-!
Verification development for the `hello_egui` repository, covering the
`egui_router` transition state machine (`crates/egui_router/src/lib.rs`)
and the stability contract of the `egui_flex` layout engine
(exercised by `crates/egui_flex/tests/flex_tests.rs`).

The embedding follows the Rust source: `EguiRouter` with its history stack,
route table, forward/backward transition configs and the optional
`current_transition`; times and sizes are rationals.  Parts of the crate that
are referenced from `lib.rs` but whose source is not in the repository
snapshot (the `transition` module, the external `matchit` matcher, and the
flex layout engine itself) are modelled from the specification, with a doc
comment on each such definition saying so.
-/

/-- Parameters extracted from a matched path: name/value pairs, as
`matchit::Params` exposes them. -/
abbrev Params := List (String × String)

/-- The left brace character, written via its code point. -/
def lbrace : Char := Char.ofNat 123

/-- The right brace character, written via its code point. -/
def rbrace : Char := Char.ofNat 125

/-- Modelled from the spec: one segment of a route pattern for the external
`matchit` matcher (not part of this repository): a literal path segment, or a
named capture written as a brace-enclosed name. -/
inductive Segment
  | lit (s : String)
  | capture (name : String)
deriving DecidableEq

/-- Split a character list on the path separator, keeping empty segments. -/
def splitChars : List Char → List (List Char)
  | [] => [[]]
  | c :: rest =>
    let r := splitChars rest
    if c = '/' then [] :: r
    else
      match r with
      | [] => [[c]]
      | h :: t => (c :: h) :: t

/-- Split a path string into its segments, on the separator. -/
def splitPath (s : String) : List String :=
  (splitChars s.toList).map (fun cs => String.mk cs)

/-- Modelled from the spec: parse one pattern segment for the external
`matchit` matcher. A brace-enclosed nonempty name is a capture; a segment with
no brace is a literal; anything else is malformed. -/
def parseSegmentChars (cs : List Char) : Option Segment :=
  if cs.contains lbrace || cs.contains rbrace then
    match cs with
    | [] => none
    | c :: rest =>
      let name := rest.dropLast
      if c == lbrace && rest.getLast? == some rbrace && !name.isEmpty
          && !name.contains lbrace && !name.contains rbrace then
        some (Segment.capture (String.mk name))
      else none
  else some (Segment.lit (String.mk cs))

/-- Modelled from the spec: parse a whole route pattern; `none` when any
segment is malformed. -/
def parsePattern (s : String) : Option (List Segment) :=
  (splitChars s.toList).mapM parseSegmentChars

/-- Match a pattern against path segments, extracting captured parameters. -/
def matchSegs : List Segment → List String → Option Params
  | [], [] => some []
  | Segment.lit a :: pat, s :: path =>
    if a = s then matchSegs pat path else none
  | Segment.capture n :: pat, s :: path =>
    (matchSegs pat path).map (fun ps => (n, s) :: ps)
  | _, _ => none

/-- Pattern precedence: `a` beats `b` when, at the first position where they
differ in kind, `a` has a literal and `b` a capture. -/
def patternBeats : List Segment → List Segment → Bool
  | Segment.lit _ :: _, Segment.capture _ :: _ => true
  | Segment.capture _ :: _, Segment.lit _ :: _ => false
  | _ :: as, _ :: bs => patternBeats as bs
  | _, _ => false

/-- Modelled from the spec: route resolution of the external `matchit` router
(not in this repository): exact match with named segment extraction, literal
segments preferred over captures, earlier registration wins among equals. -/
def matchRoute {H : Type} (routes : List (List Segment × H)) (path : List String) :
    Option (H × Params) :=
  (routes.foldl
    (fun best rh =>
      match matchSegs rh.1 path with
      | none => best
      | some params =>
        match best with
        | none => some (rh.1, rh.2, params)
        | some b => if patternBeats rh.1 b.1 then some (rh.1, rh.2, params) else best)
    none).map (fun b => (b.2.1, b.2.2))

/-- Modelled from the spec: whether a new pattern conflicts with an existing
registration (same shape: equal literals and captures in the same positions),
as the external `matchit` insert rejects. -/
def sameShape : List Segment → List Segment → Bool
  | [], [] => true
  | Segment.lit a :: as, Segment.lit b :: bs => a == b && sameShape as bs
  | Segment.capture _ :: as, Segment.capture _ :: bs => sameShape as bs
  | _, _ => false

/-- Modelled from the spec: conflict check against the registered routes. -/
def conflicts {H : Type} (routes : List (List Segment × H)) (pat : List Segment) : Bool :=
  routes.any (fun rh => sameShape rh.1 pat)

/-- Transition kinds used by `TransitionConfig` in `lib.rs`:
`SlideTransition::new(amount)`, `FadeTransition`, `NoTransition` (the
`transition` module's data, as constructed in `lib.rs`). -/
inductive Transition
  | slide (amount : ℚ)
  | fade
  | noTransition
deriving DecidableEq

/-- Easing functions referenced by the source: `egui::emath::ease_in_ease_out`
(the default in `lib.rs`) and `egui_animation::easing::quad_in_out` (used by
the router example). -/
inductive Easing
  | ease_in_ease_out
  | quad_in_out
deriving DecidableEq

/-- Smoothstep easing, as `egui::emath::ease_in_ease_out`. -/
def easeInEaseOutFn (t : ℚ) : ℚ := 3 * t ^ 2 - 2 * t ^ 3

/-- Piecewise-quadratic ease in/out, as `egui_animation::easing::quad_in_out`. -/
def quadInOutFn (t : ℚ) : ℚ :=
  if t < 1 / 2 then 2 * t ^ 2 else 1 - (-2 * t + 2) ^ 2 / 2

/-- Interpret an easing tag as its function on normalized time. -/
def Easing.apply : Easing → ℚ → ℚ
  | Easing.ease_in_ease_out => easeInEaseOutFn
  | Easing.quad_in_out => quadInOutFn

/-- `TransitionConfig` from `lib.rs`: optional duration, easing, and the in/out
transition kinds. -/
structure TransitionConfig where
  duration : Option ℚ
  easing : Easing
  tin : Transition
  tout : Transition
deriving DecidableEq

/-- The `Default` impl for `TransitionConfig` in `lib.rs`: no duration,
`ease_in_ease_out`, slide in by `1.0`, slide out by `-0.1`. -/
def TransitionConfig.default : TransitionConfig :=
  { duration := none
    easing := Easing.ease_in_ease_out
    tin := Transition.slide 1
    tout := Transition.slide (-(1 / 10)) }

/-- `TransitionConfig::new` from `lib.rs`. -/
def TransitionConfig.new (tin tout : Transition) : TransitionConfig :=
  { TransitionConfig.default with tin := tin, tout := tout }

/-- `TransitionConfig::slide` from `lib.rs`. -/
def TransitionConfig.slide : TransitionConfig := TransitionConfig.default

/-- `TransitionConfig::fade` from `lib.rs`. -/
def TransitionConfig.fade : TransitionConfig :=
  TransitionConfig.new Transition.fade Transition.fade

/-- `TransitionConfig::none` from `lib.rs`. -/
def TransitionConfig.noneConfig : TransitionConfig :=
  TransitionConfig.new Transition.noTransition Transition.noTransition

/-- `TransitionConfig::with_easing` from `lib.rs`. -/
def TransitionConfig.with_easing (c : TransitionConfig) (e : Easing) : TransitionConfig :=
  { c with easing := e }

/-- `TransitionConfig::with_duration` from `lib.rs`. -/
def TransitionConfig.with_duration (c : TransitionConfig) (d : ℚ) : TransitionConfig :=
  { c with duration := some d }

/-- Direction of an active transition. -/
inductive TDirection
  | forward
  | backward
deriving DecidableEq

/-- Result of advancing an active transition for one frame, as returned by the
`transition` module's `show` and consumed by `EguiRouter::ui`. -/
inductive ActiveTransitionResult
  | Continue
  | Done
  | DonePop
deriving DecidableEq

/-- Modelled from the spec: the `transition` module's `ActiveTransition` is not
in the repository snapshot; per the spec it is ephemeral state created on
navigate/back holding the direction, the elapsed time (starting at `0`), and
the transition configuration. -/
structure ActiveTransition where
  direction : TDirection
  elapsed : ℚ
  config : TransitionConfig
deriving DecidableEq

/-- Modelled from the spec: `ActiveTransition::forward` begins a forward
transition at elapsed time `0`. -/
def ActiveTransition.forward (cfg : TransitionConfig) : ActiveTransition :=
  { direction := TDirection.forward, elapsed := 0, config := cfg }

/-- Modelled from the spec: `ActiveTransition::backward` begins a backward
transition at elapsed time `0`. -/
def ActiveTransition.backward (cfg : TransitionConfig) : ActiveTransition :=
  { direction := TDirection.backward, elapsed := 0, config := cfg }

/-- Modelled from the spec: `with_default_duration` fills in the router's
default duration when the config gives none. -/
def ActiveTransition.with_default_duration (t : ActiveTransition) (d : Option ℚ) :
    ActiveTransition :=
  match t.config.duration with
  | some _ => t
  | none => { t with config := { t.config with duration := d } }

/-- Modelled from the spec: advancing an `ActiveTransition` by one frame delta.
Elapsed time grows by the delta; normalized progress is
`clamp(elapsed/duration, 0, 1)` (a missing or nonpositive duration means an
instant swap); when progress reaches `1` the result is `Done` for forward and
`DonePop` for backward transitions, otherwise `Continue`. -/
def ActiveTransition.show (t : ActiveTransition) (dt : ℚ) :
    ActiveTransition × ActiveTransitionResult :=
  let elapsed2 := t.elapsed + dt
  let t2 := { t with elapsed := elapsed2 }
  let progress : ℚ :=
    match t.config.duration with
    | none => 1
    | some dur =>
      if dur ≤ 0 then 1
      else if elapsed2 / dur ≤ 1 then elapsed2 / dur else 1
  if 1 ≤ progress then
    match t.direction with
    | TDirection.forward => (t2, ActiveTransitionResult.Done)
    | TDirection.backward => (t2, ActiveTransitionResult.DonePop)
  else (t2, ActiveTransitionResult.Continue)

/-- `EguiRouter<State>` from `lib.rs`. Handlers are stored in the route table
as functions from extracted parameters and shared state to the updated state
and the produced route instance (`Handler::handle` on a `Request`); `R` is the
type of route instances held by the history stack, top at the end. -/
structure EguiRouter (S R : Type) where
  router : List (List Segment × (Params → S → S × R))
  state : S
  history : List R
  forward_transition : TransitionConfig
  backward_transition : TransitionConfig
  current_transition : Option ActiveTransition
  default_duration : Option ℚ

/-- `EguiRouter::new` from `lib.rs`. -/
def EguiRouter.new (S R : Type) (state : S) : EguiRouter S R :=
  { router := []
    state := state
    history := []
    forward_transition := TransitionConfig.default
    backward_transition := TransitionConfig.default
    current_transition := none
    default_duration := none }

/-- `EguiRouter::route` from `lib.rs`: insert into the matcher and `expect`
success, so a malformed or conflicting pattern aborts the registration with
the `Invalid route` failure at the call itself. -/
def EguiRouter.route {S R : Type} (r : EguiRouter S R) (pattern : String)
    (handler : Params → S → S × R) : Except String (EguiRouter S R) :=
  match parsePattern pattern with
  | none => Except.error "Invalid route"
  | some segs =>
    if conflicts r.router segs then Except.error "Invalid route"
    else Except.ok { r with router := r.router ++ [(segs, handler)] }

/-- `EguiRouter::navigate_transition` from `lib.rs`: on a match, run the
handler on the extracted params and the shared state, push the produced route,
and start a fresh forward transition with the given config and the default
duration; on no match, leave the router untouched and log the failure (the
second component is the `eprintln` output). -/
def EguiRouter.navigate_transition {S R : Type} (r : EguiRouter S R) (route : String)
    (transition_config : TransitionConfig) : EguiRouter S R × Option String :=
  match matchRoute r.router (splitPath route) with
  | some (handler, params) =>
    let res := handler params r.state
    ({ r with
        state := res.1
        history := r.history ++ [res.2]
        current_transition :=
          some ((ActiveTransition.forward transition_config).with_default_duration
            r.default_duration) },
      none)
  | none => (r, some ("Failed to navigate to route: " ++ route))

/-- `EguiRouter::back_transition` from `lib.rs`: only when more than one
history entry exists, start a fresh backward transition; the history itself is
untouched here. -/
def EguiRouter.back_transition {S R : Type} (r : EguiRouter S R)
    (transition_config : TransitionConfig) : EguiRouter S R :=
  if 1 < r.history.length then
    { r with
        current_transition :=
          some ((ActiveTransition.backward transition_config).with_default_duration
            r.default_duration) }
  else r

/-- `EguiRouter::navigate` from `lib.rs`. -/
def EguiRouter.navigate {S R : Type} (r : EguiRouter S R) (route : String) :
    EguiRouter S R × Option String :=
  r.navigate_transition route r.forward_transition

/-- `EguiRouter::back` from `lib.rs`. -/
def EguiRouter.back {S R : Type} (r : EguiRouter S R) : EguiRouter S R :=
  r.back_transition r.backward_transition

/-- One render step, `EguiRouter::ui` from `lib.rs`, with the frame delta made
explicit: with a nonempty history, an active transition is advanced and its
result handled — `Done` clears the transition, `DonePop` clears it and pops
the top history entry, `Continue` keeps the advanced transition. The second
component is the observed transition result (`None` when idle), mirroring the
source's `result` binding. -/
def EguiRouter.uiStep {S R : Type} (r : EguiRouter S R) (dt : ℚ) :
    EguiRouter S R × Option ActiveTransitionResult :=
  if r.history.isEmpty then (r, none)
  else
    match r.current_transition with
    | none => (r, none)
    | some t =>
      let s := t.show dt
      match s.2 with
      | ActiveTransitionResult.Done =>
        ({ r with current_transition := none }, some ActiveTransitionResult.Done)
      | ActiveTransitionResult.DonePop =>
        ({ r with current_transition := none, history := r.history.dropLast },
          some ActiveTransitionResult.DonePop)
      | ActiveTransitionResult.Continue =>
        ({ r with current_transition := some s.1 }, some ActiveTransitionResult.Continue)

/-- The router state after one render step. -/
def EguiRouter.ui {S R : Type} (r : EguiRouter S R) (dt : ℚ) : EguiRouter S R :=
  (r.uiStep dt).1

/-- The route instances drawn by a render step, from `EguiRouter::ui` in
`lib.rs`: the history top always, and during a transition also the entry just
below the top. -/
def EguiRouter.visibleRoutes {S R : Type} (r : EguiRouter S R) : List R :=
  match r.history.getLast? with
  | none => []
  | some top =>
    match r.current_transition with
    | none => [top]
    | some _ => top :: (r.history.dropLast.getLast?.toList)

/-- A computed rectangle, in points. -/
structure Rect where
  x : ℚ
  y : ℚ
  w : ℚ
  h : ℚ
deriving DecidableEq

/-- `Size` from `egui_flex`, as used by the tests: absolute points or a
fraction of the container. -/
inductive Size
  | points (v : ℚ)
  | percent (v : ℚ)
deriving DecidableEq

/-- Layout direction of a flex container. -/
inductive FlexDirection
  | row
  | column
deriving DecidableEq

/-- Main-axis justification. -/
inductive FlexJustify
  | start
  | center
  | flexEnd
  | spaceBetween
  | spaceAround
  | spaceEvenly
deriving DecidableEq

/-- Cross-axis alignment of items within a line. -/
inductive FlexAlign
  | start
  | center
  | flexEnd
  | stretch
deriving DecidableEq

/-- Modelled from the spec: the per-item layout data of the `egui_flex` engine
(its source is not in the repository snapshot, only its tests): grow factor,
whether the item may shrink, optional explicit basis, optional fixed main-axis
size, the intrinsic content sizes, and the intrinsic minimum main-axis size
that shrinking never goes below. -/
structure FlexItem where
  grow : ℚ
  shrink : Bool
  basis : Option ℚ
  mainSize : Option Size
  intrinsicMain : ℚ
  intrinsicCross : ℚ
  minMain : ℚ
deriving DecidableEq

/-- Modelled from the spec: the container configuration of the `egui_flex`
engine: direction, wrapping, justification, cross-axis alignment, gap, and the
container's main/cross sizes. -/
structure FlexConfig where
  direction : FlexDirection
  wrap : Bool
  justify : FlexJustify
  alignItems : FlexAlign
  gap : ℚ
  mainLen : ℚ
  crossLen : ℚ
deriving DecidableEq

/-- Modelled from the spec: resolve an item's preferred main-axis size — a
fixed points/percent size when given (percent against the outer container),
else the explicit basis, else the intrinsic content size; clamped at zero. -/
def resolveBasis (containerMain : ℚ) (it : FlexItem) : ℚ :=
  max 0
    (match it.mainSize with
     | some (Size.points p) => p
     | some (Size.percent q) => q * containerMain
     | none => it.basis.getD it.intrinsicMain)

/-- Modelled from the spec: greedy line partition along the main axis — keep
adding items while the accumulated basis plus gaps fits the container; with
wrapping disabled everything stays on one line. Returns lines of items paired
with their resolved bases. -/
def buildLines (wrap : Bool) (gap mainLen : ℚ) (items : List (FlexItem × ℚ)) :
    List (List (FlexItem × ℚ)) :=
  if wrap then
    let step := fun (acc : List (List (FlexItem × ℚ)) × List (FlexItem × ℚ) × ℚ)
        (it : FlexItem × ℚ) =>
      let (done, cur, used) := acc
      match cur with
      | [] => (done, [it], it.2)
      | _ =>
        if used + gap + it.2 ≤ mainLen then (done, cur ++ [it], used + gap + it.2)
        else (done ++ [cur], [it], it.2)
    let fin := items.foldl step ([], [], 0)
    match fin.2.1 with
    | [] => fin.1
    | cur => fin.1 ++ [cur]
  else
    match items with
    | [] => []
    | _ => [items]

/-- Modelled from the spec: distribute leftover main-axis space within one
line. Positive leftover goes proportionally to grow factors; negative leftover
is taken proportionally to basis from shrinkable items, floored at the
intrinsic minimum. -/
def resolveLineSizes (gap mainLen : ℚ) (line : List (FlexItem × ℚ)) : List ℚ :=
  let n : ℚ := (line.length : ℚ)
  let totalBasis := (line.map (fun p => p.2)).sum
  let gaps := gap * (n - 1)
  let leftover := mainLen - totalBasis - gaps
  if 0 < leftover then
    let totalGrow := (line.map (fun p => p.1.grow)).sum
    if 0 < totalGrow then
      line.map (fun p => p.2 + leftover * p.1.grow / totalGrow)
    else line.map (fun p => p.2)
  else if leftover < 0 then
    let shrinkBasis : ℚ := (line.map (fun p => if p.1.shrink then p.2 else 0)).sum
    if 0 < shrinkBasis then
      line.map (fun p =>
        if p.1.shrink then
          max p.1.minMain (max 0 (p.2 + leftover * p.2 / shrinkBasis))
        else p.2)
    else line.map (fun p => p.2)
  else line.map (fun p => p.2)

/-- Modelled from the spec: the leading offset and the inter-item spacing on
the main axis, from the justification mode, the free space and the item
count. `SpaceBetween` degenerates to start-packing for a single item. -/
def justifyOffsets (justify : FlexJustify) (gap free : ℚ) (n : ℕ) : ℚ × ℚ :=
  match justify with
  | FlexJustify.start => (0, gap)
  | FlexJustify.center => (free / 2, gap)
  | FlexJustify.flexEnd => (free, gap)
  | FlexJustify.spaceBetween =>
    if n ≤ 1 then (0, gap) else (0, gap + free / ((n : ℚ) - 1))
  | FlexJustify.spaceAround =>
    if n = 0 then (0, gap) else (free / (2 * (n : ℚ)), gap + free / (n : ℚ))
  | FlexJustify.spaceEvenly => (free / ((n : ℚ) + 1), gap + free / ((n : ℚ) + 1))

/-- Positions along the main axis from a leading offset, the per-item sizes
and a uniform spacing. -/
def mainPositions (lead spacing : ℚ) : List ℚ → List ℚ
  | [] => []
  | s :: rest => lead :: mainPositions (lead + s + spacing) spacing rest

/-- Modelled from the spec: cross-axis placement of one item within its line —
offset within the line and the item's cross size (stretch fills the line). -/
def crossPlace (alignItems : FlexAlign) (lineCross itemCross : ℚ) : ℚ × ℚ :=
  match alignItems with
  | FlexAlign.start => (0, itemCross)
  | FlexAlign.center => ((lineCross - itemCross) / 2, itemCross)
  | FlexAlign.flexEnd => (lineCross - itemCross, itemCross)
  | FlexAlign.stretch => (0, lineCross)

/-- Turn main/cross coordinates into a rectangle per the direction. -/
def toRect (dir : FlexDirection) (mainPos crossPos mainSz crossSz : ℚ) : Rect :=
  match dir with
  | FlexDirection.row => { x := mainPos, y := crossPos, w := mainSz, h := crossSz }
  | FlexDirection.column => { x := crossPos, y := mainPos, w := crossSz, h := mainSz }

/-- Modelled from the spec: lay out one line at a given cross offset. -/
def layoutLine (cfg : FlexConfig) (crossOffset : ℚ) (line : List (FlexItem × ℚ)) :
    List Rect :=
  let sizes := resolveLineSizes cfg.gap cfg.mainLen line
  let lineCross := (line.map (fun p => p.1.intrinsicCross)).foldl max 0
  let free := cfg.mainLen - sizes.sum - cfg.gap * ((line.length : ℚ) - 1)
  let lo := justifyOffsets cfg.justify cfg.gap free line.length
  let poss := mainPositions lo.1 lo.2 sizes
  (List.zip (List.zip line sizes) poss).map (fun q =>
    let cp := crossPlace cfg.alignItems lineCross q.1.1.1.intrinsicCross
    toRect cfg.direction q.2 (crossOffset + cp.1) q.1.2 cp.2)

/-- Cross offsets of successive lines, each line's cross size being the max of
its items' intrinsic cross sizes, separated by the gap. -/
def lineOffsets (gap : ℚ) (start : ℚ) : List (List (FlexItem × ℚ)) → List ℚ
  | [] => []
  | line :: rest =>
    let lineCross := (line.map (fun p => p.1.intrinsicCross)).foldl max 0
    start :: lineOffsets gap (start + lineCross + gap) rest

/-- Modelled from the spec: the `egui_flex` layout computation (its source is
not in the repository snapshot) — one rectangle per item, in input order:
resolve bases, partition into lines, grow/shrink within each line, justify on
the main axis, align on the cross axis, stack lines. It is a pure function of
its inputs. -/
def layout (cfg : FlexConfig) (items : List FlexItem) : List Rect :=
  let withBasis := items.map (fun it => (it, resolveBasis cfg.mainLen it))
  let lines := buildLines cfg.wrap cfg.gap cfg.mainLen withBasis
  let offs := lineOffsets cfg.gap 0 lines
  ((List.zip lines offs).map (fun lo => layoutLine cfg lo.2 lo.1)).flatten

/-- Modelled from the spec: one frame of the flex engine. The only state kept
across frames is the cache of the previous frame's rectangles (used to avoid
flicker when content changes); the output for unchanged content is the pure
layout of the inputs, and the cache is refreshed to it. -/
def flexFrame (cfg : FlexConfig) (items : List FlexItem) (_cache : Option (List Rect)) :
    List Rect × Option (List Rect) :=
  let rects := layout cfg items
  (rects, some rects)

/-- The frame sequence of `should_be_stable` in `flex_tests.rs`: a first
render, then repeated re-renders threading the cached rectangles. -/
def flexFrames (cfg : FlexConfig) (items : List FlexItem) : ℕ → List Rect × Option (List Rect)
  | 0 => flexFrame cfg items none
  | n + 1 => flexFrame cfg items (flexFrames cfg items n).2

/-- Filling in the default duration never changes the elapsed time. -/
theorem with_default_duration_elapsed (t : ActiveTransition) (d : Option ℚ) :
    (t.with_default_duration d).elapsed = t.elapsed := by
  unfold ActiveTransition.with_default_duration
  cases hd : t.config.duration <;> simp [hd]

/-- A render step either leaves the history unchanged, or the active
transition reported `DonePop` and exactly the top entry was removed. -/
theorem uiStep_history_cases {S R : Type} (r : EguiRouter S R) (dt : ℚ) :
    (r.ui dt).history = r.history ∨
      (∃ t, r.current_transition = some t
        ∧ (ActiveTransition.show t dt).2 = ActiveTransitionResult.DonePop
        ∧ (r.ui dt).history = r.history.dropLast) := by
  unfold EguiRouter.ui EguiRouter.uiStep
  by_cases hh : r.history.isEmpty
  · simp [hh]
  · cases hc : r.current_transition with
    | none => simp [hh, hc]
    | some t =>
      cases hs : (ActiveTransition.show t dt).2 with
      | Continue => simp [hh, hc, hs]
      | Done => simp [hh, hc, hs]
      | DonePop =>
        right
        exact ⟨t, rfl, hs, by simp [hh, hs]⟩

/-- A render step whose transition does not report `DonePop` preserves the
history stack. -/
theorem uiStep_history_of_not_pop {S R : Type} (r : EguiRouter S R) (dt : ℚ)
    (h : ∀ t, r.current_transition = some t →
      (ActiveTransition.show t dt).2 ≠ ActiveTransitionResult.DonePop) :
    (r.ui dt).history = r.history := by
  rcases uiStep_history_cases r dt with heq | ⟨t, hc, hs, _⟩
  · exact heq
  · exact absurd hs (h t hc)

/-- With more than one history entry, `back_transition` only installs a fresh
backward transition. -/
theorem back_transition_eq {S R : Type} (r : EguiRouter S R) (cfg : TransitionConfig)
    (hlen : 1 < r.history.length) :
    r.back_transition cfg =
      { r with
          current_transition :=
            some ((ActiveTransition.backward cfg).with_default_duration
              r.default_duration) } := by
  unfold EguiRouter.back_transition
  rw [if_pos hlen]

/-- The handler for the capture route in the sample routers: bumps the shared
counter and produces a route instance recording the captured id. -/
def hWild : Params → ℕ → ℕ × String :=
  fun params s => (s + 1, "wildcard:" ++ ((params.lookup "id").getD "?"))

/-- The handler for the literal route in the sample routers. -/
def hNew : Params → ℕ → ℕ × String := fun _ s => (s + 1, "literal-new")

/-- A handler used for registration in witnesses. -/
def hHome : Params → ℕ → ℕ × String := fun _ s => (s + 1, "home")

/-- The parsed pattern of the capture route `/post/\x7bid\x7d`. -/
def patWild : List Segment := [Segment.lit "", Segment.lit "post", Segment.capture "id"]

/-- The parsed pattern of the literal route `/post/new`. -/
def patNew : List Segment := [Segment.lit "", Segment.lit "post", Segment.lit "new"]

/-- A concrete router with the capture route registered before the literal
one, one history entry, and no active transition. -/
def sampleRouter : EguiRouter ℕ String :=
  { router := [(patWild, hWild), (patNew, hNew)]
    state := 0
    history := ["home"]
    forward_transition := TransitionConfig.default
    backward_transition := TransitionConfig.default
    current_transition := none
    default_duration := none }

/-- The sample router with two history entries. -/
def sampleRouter2 : EguiRouter ℕ String :=
  { sampleRouter with history := ["home", "second"] }

/-- The sample router with two history entries and an in-flight forward
transition. -/
def sampleRouterT : EguiRouter ℕ String :=
  { sampleRouter2 with
      current_transition := some (ActiveTransition.forward TransitionConfig.default) }

/-- Claim C1: at most one transition is active at a time (the router holds a
single optional `current_transition`), and a `navigate` or `back` call made
while a transition is in flight replaces it with a fresh transition starting
from elapsed time `0` — nothing is queued. -/
theorem claim_c1 {S R : Type} (r : EguiRouter S R) (path : String)
    (h : Params → S → S × R) (params : Params) (t0 : ActiveTransition)
    (hin : r.current_transition = some t0)
    (hm : matchRoute r.router (splitPath path) = some (h, params))
    (hlen : 1 < r.history.length) :
    ((r.navigate path).1.current_transition =
        some ((ActiveTransition.forward r.forward_transition).with_default_duration
          r.default_duration)
      ∧ ∀ t, (r.navigate path).1.current_transition = some t → t.elapsed = 0)
    ∧ (r.back.current_transition =
        some ((ActiveTransition.backward r.backward_transition).with_default_duration
          r.default_duration)
      ∧ ∀ t, r.back.current_transition = some t → t.elapsed = 0) := by
  have hnav : (r.navigate path).1.current_transition =
      some ((ActiveTransition.forward r.forward_transition).with_default_duration
        r.default_duration) := by
    unfold EguiRouter.navigate EguiRouter.navigate_transition
    rw [hm]
  have hback : r.back.current_transition =
      some ((ActiveTransition.backward r.backward_transition).with_default_duration
        r.default_duration) := by
    unfold EguiRouter.back
    rw [back_transition_eq r r.backward_transition hlen]
  refine ⟨⟨hnav, ?_⟩, hback, ?_⟩
  · intro t ht
    rw [hnav] at ht
    cases ht
    rw [with_default_duration_elapsed]
    rfl
  · intro t ht
    rw [hback] at ht
    cases ht
    rw [with_default_duration_elapsed]
    rfl

/-- Witness for C1 at a concrete router with an in-flight transition, a
matching path, and two history entries. -/
theorem claim_c1_witness :
    ((sampleRouterT.navigate "/post/new").1.current_transition =
        some ((ActiveTransition.forward sampleRouterT.forward_transition).with_default_duration
          sampleRouterT.default_duration)
      ∧ ∀ t, (sampleRouterT.navigate "/post/new").1.current_transition = some t →
          t.elapsed = 0)
    ∧ (sampleRouterT.back.current_transition =
        some ((ActiveTransition.backward sampleRouterT.backward_transition).with_default_duration
          sampleRouterT.default_duration)
      ∧ ∀ t, sampleRouterT.back.current_transition = some t → t.elapsed = 0) :=
  claim_c1 sampleRouterT "/post/new" hNew [] (ActiveTransition.forward TransitionConfig.default)
    (by rfl) (by rfl) (by decide)

/-- Claim C2: with more than one history entry, `back` starts the backward
transition without removing anything from history; a later render step either
keeps the history intact or — exactly when the transition reports `DonePop` —
removes only the top entry; and while the transition is active both the old
top and the entry below it are rendered. -/
theorem claim_c2 {S R : Type} (r : EguiRouter S R) (cfg : TransitionConfig)
    (hlen : 1 < r.history.length) :
    (r.back_transition cfg).history = r.history
    ∧ (∀ dt : ℚ,
        ((r.back_transition cfg).ui dt).history = r.history
        ∨ (∃ t, (r.back_transition cfg).current_transition = some t
            ∧ (ActiveTransition.show t dt).2 = ActiveTransitionResult.DonePop
            ∧ ((r.back_transition cfg).ui dt).history = r.history.dropLast))
    ∧ (∀ top, r.history.getLast? = some top →
        (r.back_transition cfg).visibleRoutes =
          top :: (r.history.dropLast.getLast?.toList)) := by
  have hbt := back_transition_eq r cfg hlen
  have hh : (r.back_transition cfg).history = r.history := by rw [hbt]
  refine ⟨hh, ?_, ?_⟩
  · intro dt
    rcases uiStep_history_cases (r.back_transition cfg) dt with heq | ⟨t, hc, hs, hdrop⟩
    · left
      rw [heq, hh]
    · right
      exact ⟨t, hc, hs, by rw [hdrop, hh]⟩
  · intro top htop
    unfold EguiRouter.visibleRoutes
    rw [hbt]
    simp only []
    rw [htop]

/-- Witness for C2 at a concrete router with two history entries. -/
theorem claim_c2_witness :
    (sampleRouter2.back_transition TransitionConfig.default).history = sampleRouter2.history
    ∧ (∀ dt : ℚ,
        ((sampleRouter2.back_transition TransitionConfig.default).ui dt).history =
          sampleRouter2.history
        ∨ (∃ t,
            (sampleRouter2.back_transition TransitionConfig.default).current_transition = some t
            ∧ (ActiveTransition.show t dt).2 = ActiveTransitionResult.DonePop
            ∧ ((sampleRouter2.back_transition TransitionConfig.default).ui dt).history =
                sampleRouter2.history.dropLast))
    ∧ (∀ top, sampleRouter2.history.getLast? = some top →
        (sampleRouter2.back_transition TransitionConfig.default).visibleRoutes =
          top :: (sampleRouter2.history.dropLast.getLast?.toList)) :=
  claim_c2 sampleRouter2 TransitionConfig.default (by decide)

/-- Claim C3: navigating to a path that matches no registered pattern logs the
failure and returns the router completely unchanged — history, active
transition and shared state included — so the visible route stays. -/
theorem claim_c3 {S R : Type} (r : EguiRouter S R) (path : String)
    (hmiss : matchRoute r.router (splitPath path) = none) :
    r.navigate path = (r, some ("Failed to navigate to route: " ++ path)) := by
  unfold EguiRouter.navigate EguiRouter.navigate_transition
  rw [hmiss]

/-- Witness for C3 at a concrete router and an unmatched path. -/
theorem claim_c3_witness :
    sampleRouter.navigate "/nope" =
      (sampleRouter, some ("Failed to navigate to route: " ++ "/nope")) :=
  claim_c3 sampleRouter "/nope" (by rfl)

/-- Claim C4: navigating to a matched path runs that route's handler on the
extracted parameters and the shared state, pushes exactly the produced route
instance as the new history top, starts a forward transition from the forward
configuration, and logs nothing. -/
theorem claim_c4 {S R : Type} (r : EguiRouter S R) (path : String)
    (h : Params → S → S × R) (params : Params)
    (hm : matchRoute r.router (splitPath path) = some (h, params)) :
    (r.navigate path).1 =
      { r with
          state := (h params r.state).1
          history := r.history ++ [(h params r.state).2]
          current_transition :=
            some ((ActiveTransition.forward r.forward_transition).with_default_duration
              r.default_duration) }
    ∧ (r.navigate path).2 = none := by
  unfold EguiRouter.navigate EguiRouter.navigate_transition
  rw [hm]
  exact ⟨rfl, rfl⟩

/-- Witness for C4 at a concrete router and the literal route. -/
theorem claim_c4_witness :
    (sampleRouter.navigate "/post/new").1 =
      { sampleRouter with
          state := (hNew [] sampleRouter.state).1
          history := sampleRouter.history ++ [(hNew [] sampleRouter.state).2]
          current_transition :=
            some ((ActiveTransition.forward sampleRouter.forward_transition).with_default_duration
              sampleRouter.default_duration) }
    ∧ (sampleRouter.navigate "/post/new").2 = none :=
  claim_c4 sampleRouter "/post/new" hNew [] (by rfl)

/-- The sample router with a `0.3`-second duration on both transition
configurations, as in the transition-completion scenario. -/
def c5router : EguiRouter ℕ String :=
  { sampleRouter with
      forward_transition := TransitionConfig.default.with_duration (3 / 10)
      backward_transition := TransitionConfig.default.with_duration (3 / 10) }

/-- The scenario states: a forward navigation to the literal route, then
render steps of `0.05` seconds each. -/
def c5iter : ℕ → EguiRouter ℕ String
  | 0 => (c5router.navigate "/post/new").1
  | n + 1 => (c5iter n).ui (1 / 20)

/-- The transition result observed by the render step taken from the scenario
state after `n` steps. -/
def c5res (n : ℕ) : Option ActiveTransitionResult :=
  ((c5iter n).uiStep (1 / 20)).2

/-- The backward scenario: from the settled state, a `back` call followed by
the same render steps. -/
def c5back : ℕ → EguiRouter ℕ String
  | 0 => (c5iter 6).back
  | n + 1 => (c5back n).ui (1 / 20)

/-- The transition result observed in the backward scenario after `n` steps. -/
def c5backRes (n : ℕ) : Option ActiveTransitionResult :=
  ((c5back n).uiStep (1 / 20)).2

attribute [local semireducible] Rat.add Rat.mul Rat.inv Rat.sub Rat.ofScientific in
/-- Claim C5: with duration `0.3` and simulated `0.05`-second steps, the first
five renders of a forward transition return `Continue` and the sixth returns
`Done`; after `Done` the transition is cleared, the render is idle (`none`
observed) and shows exactly the new top of history; a backward transition run
the same way ends in `DonePop`, which pops the top entry. -/
theorem claim_c5 :
    (c5res 0 = some ActiveTransitionResult.Continue
      ∧ c5res 1 = some ActiveTransitionResult.Continue
      ∧ c5res 2 = some ActiveTransitionResult.Continue
      ∧ c5res 3 = some ActiveTransitionResult.Continue
      ∧ c5res 4 = some ActiveTransitionResult.Continue
      ∧ c5res 5 = some ActiveTransitionResult.Done)
    ∧ ((c5iter 6).current_transition = none
      ∧ (c5iter 6).visibleRoutes = ["literal-new"]
      ∧ c5res 6 = none)
    ∧ (c5backRes 0 = some ActiveTransitionResult.Continue
      ∧ c5backRes 4 = some ActiveTransitionResult.Continue
      ∧ c5backRes 5 = some ActiveTransitionResult.DonePop
      ∧ (c5back 6).history = ["home"]
      ∧ (c5back 6).current_transition = none) := by
  decide

/-- Claim C6: `back` with at most one history entry changes nothing at all. -/
theorem claim_c6 {S R : Type} (r : EguiRouter S R) (hlen : r.history.length ≤ 1) :
    r.back = r := by
  unfold EguiRouter.back EguiRouter.back_transition
  rw [if_neg (Nat.not_lt.mpr hlen)]

/-- Witness for C6 at a concrete router with one history entry. -/
theorem claim_c6_witness : sampleRouter.back = sampleRouter :=
  claim_c6 sampleRouter (by decide)

/-- Claim C7: with the capture route registered before the literal one,
resolution of the literal path runs the literal route's handler, while a
non-literal path still goes to the capture route with its parameter
extracted; the two registered segment lists are exactly the parses of
`/post/\x7bid\x7d` and `/post/new`. -/
theorem claim_c7 :
    parsePattern "/post/\x7bid\x7d" = some patWild
    ∧ parsePattern "/post/new" = some patNew
    ∧ (sampleRouter.navigate "/post/new").1.history.getLast? = some "literal-new"
    ∧ (sampleRouter.navigate "/post/7").1.history.getLast? = some "wildcard:7" := by
  exact ⟨rfl, rfl, rfl, rfl⟩

/-- Claim C8: registering a malformed or conflicting pattern fails during the
`route` call itself — the call returns the `Invalid route` failure and the
registration is aborted, with nothing deferred to navigation time. -/
theorem claim_c8 {S R : Type} (r : EguiRouter S R) (pat : String)
    (handler : Params → S → S × R)
    (hbad : parsePattern pat = none
      ∨ ∃ segs, parsePattern pat = some segs ∧ conflicts r.router segs = true) :
    r.route pat handler = Except.error "Invalid route" := by
  unfold EguiRouter.route
  rcases hbad with hb | ⟨segs, hp, hc⟩
  · rw [hb]
  · rw [hp]
    simp [hc]

/-- Witness for C8 at a concrete router: a pattern with an unclosed brace
segment is rejected by the registration call. -/
theorem claim_c8_witness :
    sampleRouter.route "/post/\x7bid" hHome = Except.error "Invalid route" :=
  claim_c8 sampleRouter "/post/\x7bid" hHome (Or.inl (by rfl))

/-- Claim C9: the flex layout is a deterministic, stable computation: with the
item list and container configuration unchanged, every re-render — in
particular three consecutive re-renders, as the `should_be_stable` test checks
— produces exactly the same rectangles as the first render. -/
theorem claim_c9 (cfg : FlexConfig) (items : List FlexItem) :
    ((flexFrames cfg items 1).1 = (flexFrames cfg items 0).1
      ∧ (flexFrames cfg items 2).1 = (flexFrames cfg items 0).1
      ∧ (flexFrames cfg items 3).1 = (flexFrames cfg items 0).1)
    ∧ ∀ n, (flexFrames cfg items n).1 = (flexFrames cfg items 0).1 := by
  refine ⟨⟨rfl, rfl, rfl⟩, fun n => ?_⟩
  cases n <;> rfl

/-- Claim C10: a backward transition started by `back` never has its targeted
history entry removed unless a render observes `DonePop`: `back` itself leaves
history intact, a render step whose transition does not report `DonePop`
preserves history, and a successful `navigate` after the `back` only appends —
the full old history (its top included) stays as a prefix, with the new route
on top. -/
theorem claim_c10 {S R : Type} (r s : EguiRouter S R) (path : String)
    (h : Params → S → S × R) (params : Params) (dt : ℚ)
    (hlen : 1 < r.history.length)
    (hnodone : ∀ t, s.current_transition = some t →
      (ActiveTransition.show t dt).2 ≠ ActiveTransitionResult.DonePop)
    (hm : matchRoute r.router (splitPath path) = some (h, params)) :
    r.back.history = r.history
    ∧ (s.ui dt).history = s.history
    ∧ (r.back.navigate path).1.history = r.history ++ [(h params r.state).2]
    ∧ ((r.back.navigate path).1.history.take r.history.length = r.history) := by
  have hb := back_transition_eq r r.backward_transition hlen
  have hbh : r.back.history = r.history := by
    unfold EguiRouter.back
    rw [hb]
  have hnav : (r.back.navigate path).1.history = r.history ++ [(h params r.state).2] := by
    unfold EguiRouter.back EguiRouter.navigate EguiRouter.navigate_transition
    rw [hb]
    simp only []
    rw [hm]
  refine ⟨hbh, uiStep_history_of_not_pop s dt hnodone, hnav, ?_⟩
  rw [hnav]
  exact List.take_left r.history [(h params r.state).2]

/-- Witness for C10: a concrete router with two history entries, an idle
render state, and the literal route as the interrupting navigation. -/
theorem claim_c10_witness :
    sampleRouter2.back.history = sampleRouter2.history
    ∧ (sampleRouter.ui (1 / 20)).history = sampleRouter.history
    ∧ (sampleRouter2.back.navigate "/post/new").1.history =
        sampleRouter2.history ++ [(hNew [] sampleRouter2.state).2]
    ∧ ((sampleRouter2.back.navigate "/post/new").1.history.take
        sampleRouter2.history.length = sampleRouter2.history) :=
  claim_c10 sampleRouter2 sampleRouter "/post/new" hNew [] (1 / 20) (by decide)
    (fun t ht => Option.noConfusion ht) (by rfl)
